import Mathlib

/-! StarEngine `SoundEffect` (jni/Sound/SoundEffect.cpp)

A shallow embedding of the player-pool bookkeeping of `star::SoundEffect`
(the OpenSL ES build, the `#else` / `ANDROID` branches of the source) and of
the desktop `GetVolume` (the SDL_mixer build), followed by theorems about
`Play`, `Stop`, `Pause`, `MusicStoppedCallback` and `GetVolume`.

Modelling conventions.

* A native player interface (`SLPlayItf`) is a handle; only its identity is
  used by the source (`eff->mPlayers[i] == caller`).  The play state of each
  native player lives in the audio runtime, not in the `SoundEffect` object.
* The audio runtime keeps, besides the play state of every player, a journal
  of the `SetPlayState` requests it received, so that "the callback issues no
  transition to playing" can be stated.
* A result code that the source inspects is a parameter of the embedded
  function (the `SetPlayState` result in `Play`, the `GetPlayState` result in
  `Pause`).  Native calls whose result the source discards are embedded with
  the result `SL_RESULT_SUCCESS`, that is, they take effect.
* `mPlayers` and `mLoopTimes` are vectors of size `MAX_SAMPLES`; they are
  functions on `Fin MAX_SAMPLES`.  `MAX_SAMPLES` is declared in the header and
  is a parameter here.
* `int` is a 32 bit two's complement integer.  The one overflow `--` can meet,
  at the least `int`, is undefined in C++ and is embedded as the wrap.
* The desktop `SetVolume` is a member of `BaseSound`, which is not in this
  file; it is modelled from the spec (it caches its argument in `mVolume`).
* `BaseSound::Play`, `BaseSound::Stop` and `BaseSound::Pause` are hooks of the
  base class.  The pool (`mPlayers`, `mLoopTimes`) belongs to `SoundEffect`,
  the hooks have no part in it, and they are left out of the embedding.
-/

namespace star

/-! ## OpenSL ES: types and constants (OpenSLES.h) -/

/-- The type `SLuint32`. -/
abbrev SLuint32 := Nat

/-- The type `SLresult`, an `SLuint32`. -/
abbrev SLresult := SLuint32

/-- The type `SLPlayItf`: a handle on a native player, compared by identity. -/
abbrev SLPlayItf := Nat

/-- The constant `SL_RESULT_SUCCESS` is `0x00000000`. -/
def SL_RESULT_SUCCESS : SLresult := 0

/-- The constant `SL_PLAYSTATE_STOPPED` is `0x00000001`. -/
def SL_PLAYSTATE_STOPPED : SLuint32 := 1

/-- The constant `SL_PLAYSTATE_PAUSED` is `0x00000002`. -/
def SL_PLAYSTATE_PAUSED : SLuint32 := 2

/-- The constant `SL_PLAYSTATE_PLAYING` is `0x00000003`. -/
def SL_PLAYSTATE_PLAYING : SLuint32 := 3

/-- The native audio runtime: the play state of every player, and the journal
of the `SetPlayState` requests received so far (oldest first). -/
structure AudioRuntime where
  playState : SLPlayItf → SLuint32
  requests : List (SLPlayItf × SLuint32)

/-- Native `(*self)->GetPlayState(self, &out)`: the pair of the returned result
code `res` and of the value written through the out pointer. -/
def GetPlayState (rt : AudioRuntime) (self : SLPlayItf) (res : SLresult) :
    SLresult × SLuint32 :=
  (res, rt.playState self)

/-- Native `(*self)->SetPlayState(self, state)` returning the result code `res`:
the request is journalled, and it takes effect when `res` is
`SL_RESULT_SUCCESS`. -/
def SetPlayState (rt : AudioRuntime) (self : SLPlayItf) (state : SLuint32)
    (res : SLresult) : AudioRuntime × SLresult :=
  ({ playState :=
       if res = SL_RESULT_SUCCESS then Function.update rt.playState self state
       else rt.playState
     requests := rt.requests ++ [(self, state)] },
   res)

/-- Two's complement wrap of an integer to the 32 bit `int` range. -/
def wrapInt32 (x : Int) : Int := (x + 2 ^ 31) % 2 ^ 32 - 2 ^ 31

/-! ## The OpenSL ES build of `SoundEffect` -/

namespace Android

/-- The pool members of `SoundEffect`: `std::vector<SLPlayItf> mPlayers` and the
parallel `mLoopTimes`, both of size `MAX_SAMPLES`. -/
structure SoundEffect (MAX_SAMPLES : Nat) where
  mPlayers : Fin MAX_SAMPLES → SLPlayItf
  mLoopTimes : Fin MAX_SAMPLES → Int

/-- A sound effect together with the audio runtime its players live in. -/
structure World (MAX_SAMPLES : Nat) where
  eff : SoundEffect MAX_SAMPLES
  audio : AudioRuntime

variable {MAX_SAMPLES : Nat}

/-- The play state the runtime reports for the player in slot `i`. -/
def World.slotState (w : World MAX_SAMPLES) (i : Fin MAX_SAMPLES) : SLuint32 :=
  w.audio.playState (w.eff.mPlayers i)

/-- Body of the loop of `SoundEffect::Stop`, for slot `i`. -/
def SoundEffect.Stop.body (w : World MAX_SAMPLES) (i : Fin MAX_SAMPLES) :
    World MAX_SAMPLES :=
  { w with audio :=
      (SetPlayState w.audio (w.eff.mPlayers i) SL_PLAYSTATE_STOPPED
        SL_RESULT_SUCCESS).1 }

/-- `SoundEffect::Stop`: `for (i = 0; i < MAX_SAMPLES; ++i)` set player `i` to
stopped. -/
def SoundEffect.Stop (w : World MAX_SAMPLES) : World MAX_SAMPLES :=
  (List.finRange MAX_SAMPLES).foldl SoundEffect.Stop.body w

/-- The loop of `SoundEffect::Play` over the slots still to visit.  `lResSet`
is the result code of the one `SetPlayState` call the method makes. -/
def SoundEffect.Play.loop (loopTime : Int) (lResSet : SLresult) :
    List (Fin MAX_SAMPLES) → World MAX_SAMPLES → World MAX_SAMPLES
  | [], w => w
  | i :: rest, w =>
    -- SLresult lRes; GetPlayState(mPlayers[i], &lRes);
    let lRes := (GetPlayState w.audio (w.eff.mPlayers i) SL_RESULT_SUCCESS).2
    if lRes = SL_PLAYSTATE_STOPPED then
      -- mLoopTimes[i] = loopTime;
      let w1 : World MAX_SAMPLES :=
        { w with eff :=
            { w.eff with mLoopTimes := Function.update w.eff.mLoopTimes i loopTime } }
      -- lRes = SetPlayState(mPlayers[i], SL_PLAYSTATE_PLAYING);
      let r := SetPlayState w1.audio (w1.eff.mPlayers i) SL_PLAYSTATE_PLAYING lResSet
      let w2 : World MAX_SAMPLES := { w1 with audio := r.1 }
      if r.2 ≠ SL_RESULT_SUCCESS then
        -- log; Stop(); return;
        SoundEffect.Stop w2
      else
        -- return;
        w2
    else
      SoundEffect.Play.loop loopTime lResSet rest w

/-- `SoundEffect::Play(int loopTime)`. -/
def SoundEffect.Play (loopTime : Int) (lResSet : SLresult) (w : World MAX_SAMPLES) :
    World MAX_SAMPLES :=
  SoundEffect.Play.loop loopTime lResSet (List.finRange MAX_SAMPLES) w

/-- Body of the loop of `SoundEffect::Pause`, for slot `i`.  The source declares
`SLresult lres = GetPlayState(mPlayers[i], &lres)`: the call writes the play
state into `lres` and the initialisation then stores the returned result code
in it, so the comparison is made on the result code `getRes i`. -/
def SoundEffect.Pause.body (getRes : Fin MAX_SAMPLES → SLresult)
    (w : World MAX_SAMPLES) (i : Fin MAX_SAMPLES) : World MAX_SAMPLES :=
  let lres := (GetPlayState w.audio (w.eff.mPlayers i) (getRes i)).1
  if lres = SL_PLAYSTATE_PLAYING then
    { w with audio :=
        (SetPlayState w.audio (w.eff.mPlayers i) SL_PLAYSTATE_PAUSED
          SL_RESULT_SUCCESS).1 }
  else
    w

/-- `SoundEffect::Pause`.  `getRes i` is the result code of the `GetPlayState`
call on player `i`. -/
def SoundEffect.Pause (getRes : Fin MAX_SAMPLES → SLresult) (w : World MAX_SAMPLES) :
    World MAX_SAMPLES :=
  (List.finRange MAX_SAMPLES).foldl (SoundEffect.Pause.body getRes) w

/-- The search loop of `SoundEffect::MusicStoppedCallback` over the slots still
to visit. -/
def SoundEffect.MusicStoppedCallback.search (caller : SLPlayItf) :
    List (Fin MAX_SAMPLES) → World MAX_SAMPLES → World MAX_SAMPLES
  | [], w => w
  | i :: rest, w =>
    if w.eff.mPlayers i = caller then
      -- break after the branch
      if w.eff.mLoopTimes i = -1 then
        { w with audio :=
            (SetPlayState w.audio caller SL_PLAYSTATE_PLAYING SL_RESULT_SUCCESS).1 }
      else
        let w1 : World MAX_SAMPLES :=
          if w.eff.mLoopTimes i ≠ 0 then
            { w with audio :=
                (SetPlayState w.audio caller SL_PLAYSTATE_PLAYING SL_RESULT_SUCCESS).1 }
          else
            w
        -- --eff->mLoopTimes[i];
        { w1 with eff :=
            { w1.eff with mLoopTimes :=
                Function.update w1.eff.mLoopTimes i (wrapInt32 (w1.eff.mLoopTimes i - 1)) } }
    else
      SoundEffect.MusicStoppedCallback.search caller rest w

/-- `SoundEffect::MusicStoppedCallback(caller, pContext, event)`, with
`pContext` the effect of the world `w`; `event` is not read. -/
def SoundEffect.MusicStoppedCallback (caller : SLPlayItf) (w : World MAX_SAMPLES) :
    World MAX_SAMPLES :=
  let w0 : World MAX_SAMPLES :=
    { w with audio :=
        (SetPlayState w.audio caller SL_PLAYSTATE_STOPPED SL_RESULT_SUCCESS).1 }
  SoundEffect.MusicStoppedCallback.search caller (List.finRange MAX_SAMPLES) w0

/-! ### Notions used in the statements -/

/-- Number of requests to set player `h` to playing in the journal of the
runtime: how many times the clip was started on that player. -/
def World.playRequests (w : World MAX_SAMPLES) (h : SLPlayItf) : Nat :=
  w.audio.requests.count (h, SL_PLAYSTATE_PLAYING)

/-- A pool whose player handles are the slot numbers, with the play states and
loop counts read from lists, and an empty journal. -/
def examplePool (n : Nat) (states : List SLuint32) (loops : List Int) : World n :=
  { eff := { mPlayers := fun i => i.val
             mLoopTimes := fun i => loops.getD i.val 0 }
    audio := { playState := fun h => states.getD h SL_PLAYSTATE_STOPPED
               requests := [] } }

/-- The world after `k` successive playback-completion callbacks for the player
`caller`, with no other call in between. -/
def completions (caller : SLPlayItf) (k : Nat) (w : World MAX_SAMPLES) :
    World MAX_SAMPLES :=
  (SoundEffect.MusicStoppedCallback caller)^[k] w

/-- Number of players of the pool that are in the stopped state. -/
def World.stoppedCount (w : World MAX_SAMPLES) : Nat :=
  (Finset.univ.filter (fun i => w.slotState i = SL_PLAYSTATE_STOPPED)).card

/-- A sequence of `Play` calls, one per loop count of the list, every native
call succeeding. -/
def PlayAll (loops : List Int) (w : World MAX_SAMPLES) : World MAX_SAMPLES :=
  loops.foldl (fun v loopTime => SoundEffect.Play loopTime SL_RESULT_SUCCESS v) w

/-- Between `w` and `v` exactly one player, not playing in `w`, went to playing,
and the play state of every other player is the same. -/
def ExactlyOneStarted (w v : World MAX_SAMPLES) : Prop :=
  ∃ i, w.slotState i ≠ SL_PLAYSTATE_PLAYING ∧ v.slotState i = SL_PLAYSTATE_PLAYING ∧
    ∀ j, j ≠ i → v.slotState j = w.slotState j

end Android

/-! ## The SDL_mixer build of `SoundEffect` -/

namespace Desktop

/-- The constant `MIX_MAX_VOLUME` of SDL_mixer is 128. -/
def MIX_MAX_VOLUME : Int := 128

/-- The mixer of SDL_mixer, as far as the source reads it: the current volume
of every channel. -/
abbrev Mixer := Int → Int

/-- SDL_mixer `Mix_Volume(channel, volume)` on one channel: the pair of the
mixer after the call and of the returned value, the volume the channel had
before the call.  A negative `volume` only queries; another one is stored,
capped at `MIX_MAX_VOLUME`. -/
def Mix_Volume (mixer : Mixer) (channel volume : Int) : Mixer × Int :=
  if volume < 0 then (mixer, mixer channel)
  else (Function.update mixer channel (min volume MIX_MAX_VOLUME), mixer channel)

/-- The members of `SoundEffect` and of its base that the desktop `GetVolume`
reads.  A `float` is embedded as a rational number: the conversion of an `int`
below `2 ^ 24` in absolute value and the division by `MIX_MAX_VOLUME`, a power
of two, are exact in binary floating point. -/
structure SoundEffect where
  mPlayChannel : Int
  mIsMuted : Bool
  mVolume : ℚ

/-- `SoundEffect::GetVolume() const`, the `#else` branch. -/
def SoundEffect.GetVolume (s : SoundEffect) (mixer : Mixer) : ℚ :=
  if s.mIsMuted then
    s.mVolume
  else
    let volume : ℚ := ((Mix_Volume mixer s.mPlayChannel (-1)).2 : ℚ)
    volume / (MIX_MAX_VOLUME : ℚ)

/-- Modelled from the spec: the desktop `SetVolume(float volume)` is a member of
the base class `BaseSound`, whose source is not in this file.  The spec says
that the cached volume is "the last value passed to SetVolume": the call
stores its argument in `mVolume`.  The mute flag is not its business. -/
def SoundEffect.SetVolume (s : SoundEffect) (volume : ℚ) : SoundEffect :=
  { s with mVolume := volume }

/-- A sequence of `SetVolume` calls, one per value of the list, in order. -/
def SoundEffect.SetVolumes (s : SoundEffect) (volumes : List ℚ) : SoundEffect :=
  volumes.foldl SoundEffect.SetVolume s

end Desktop

/-! ## Theorems: the OpenSL ES build -/

namespace Android

open SoundEffect

variable {MAX_SAMPLES : Nat}

theorem finRange_split (i : Fin MAX_SAMPLES) :
    ∃ as bs, List.finRange MAX_SAMPLES = as ++ i :: bs ∧ ∀ a ∈ as, a < i := by
  obtain ⟨as, bs, h⟩ := List.append_of_mem (List.mem_finRange i)
  refine ⟨as, bs, h, ?_⟩
  have hp := List.pairwise_lt_finRange MAX_SAMPLES
  rw [h, List.pairwise_append] at hp
  intro a ha
  exact hp.2.2 a ha i (List.mem_cons_self _ _)

theorem Stop_fold_eff (l : List (Fin MAX_SAMPLES)) (w : World MAX_SAMPLES) :
    (l.foldl Stop.body w).eff = w.eff := by
  induction l generalizing w with
  | nil => rfl
  | cons i rest ih => rw [List.foldl_cons, ih]; rfl

theorem Stop_fold_playState (l : List (Fin MAX_SAMPLES)) (w : World MAX_SAMPLES)
    (h : SLPlayItf) :
    (l.foldl Stop.body w).audio.playState h =
      if h ∈ l.map w.eff.mPlayers then SL_PLAYSTATE_STOPPED else w.audio.playState h := by
  induction l generalizing w with
  | nil => simp
  | cons i rest ih =>
    rw [List.foldl_cons, ih]
    simp only [Stop.body, SetPlayState, if_true, List.map_cons, List.mem_cons]
    by_cases h1 : h ∈ List.map w.eff.mPlayers rest
    · simp [h1]
    · by_cases h2 : h = w.eff.mPlayers i
      · subst h2; simp [h1]
      · simp [h1, h2]

theorem Play_loop_skip (loopTime : Int) (r : SLresult) (as l : List (Fin MAX_SAMPLES))
    (w : World MAX_SAMPLES) (h : ∀ a ∈ as, w.slotState a ≠ SL_PLAYSTATE_STOPPED) :
    Play.loop loopTime r (as ++ l) w = Play.loop loopTime r l w := by
  induction as with
  | nil => rfl
  | cons a rest ih =>
    have ha : w.audio.playState (w.eff.mPlayers a) ≠ SL_PLAYSTATE_STOPPED :=
      h a (List.mem_cons_self _ _)
    rw [List.cons_append, Play.loop]
    simp only [GetPlayState, ha, if_false]
    exact ih (fun b hb => h b (List.mem_cons_of_mem _ hb))

theorem Play_loop_none (loopTime : Int) (r : SLresult) (l : List (Fin MAX_SAMPLES))
    (w : World MAX_SAMPLES) (h : ∀ a ∈ l, w.slotState a ≠ SL_PLAYSTATE_STOPPED) :
    Play.loop loopTime r l w = w := by
  have := Play_loop_skip loopTime r l [] w h
  rw [List.append_nil] at this
  rw [this]; rfl

theorem Play_loop_hit (loopTime : Int) (i : Fin MAX_SAMPLES) (rest : List (Fin MAX_SAMPLES))
    (w : World MAX_SAMPLES) (h : w.slotState i = SL_PLAYSTATE_STOPPED) :
    Play.loop loopTime SL_RESULT_SUCCESS (i :: rest) w =
      { eff := { mPlayers := w.eff.mPlayers
                 mLoopTimes := Function.update w.eff.mLoopTimes i loopTime }
        audio := { playState :=
                     Function.update w.audio.playState (w.eff.mPlayers i) SL_PLAYSTATE_PLAYING
                   requests := w.audio.requests ++ [(w.eff.mPlayers i, SL_PLAYSTATE_PLAYING)] } } := by
  have h' : w.audio.playState (w.eff.mPlayers i) = SL_PLAYSTATE_STOPPED := h
  rw [Play.loop]
  simp [GetPlayState, SetPlayState, h']

theorem Play_of_lowest (loopTime : Int) (w : World MAX_SAMPLES) (i : Fin MAX_SAMPLES)
    (hi : w.slotState i = SL_PLAYSTATE_STOPPED)
    (hlow : ∀ j, j < i → w.slotState j ≠ SL_PLAYSTATE_STOPPED) :
    Play loopTime SL_RESULT_SUCCESS w =
      { eff := { mPlayers := w.eff.mPlayers
                 mLoopTimes := Function.update w.eff.mLoopTimes i loopTime }
        audio := { playState :=
                     Function.update w.audio.playState (w.eff.mPlayers i) SL_PLAYSTATE_PLAYING
                   requests := w.audio.requests ++ [(w.eff.mPlayers i, SL_PLAYSTATE_PLAYING)] } } := by
  obtain ⟨as, bs, hsplit, has⟩ := finRange_split i
  rw [Play, hsplit, Play_loop_skip _ _ _ _ _ (fun a ha => hlow a (has a ha)),
    Play_loop_hit _ _ _ _ hi]

theorem Play_of_busy (loopTime : Int) (r : SLresult) (w : World MAX_SAMPLES)
    (h : ∀ j, w.slotState j ≠ SL_PLAYSTATE_STOPPED) :
    Play loopTime r w = w :=
  Play_loop_none _ _ _ _ (fun a _ => h a)

theorem search_skip (caller : SLPlayItf) (as l : List (Fin MAX_SAMPLES))
    (w : World MAX_SAMPLES) (h : ∀ a ∈ as, w.eff.mPlayers a ≠ caller) :
    MusicStoppedCallback.search caller (as ++ l) w =
      MusicStoppedCallback.search caller l w := by
  induction as with
  | nil => rfl
  | cons a rest ih =>
    rw [List.cons_append, MusicStoppedCallback.search]
    simp only [h a (List.mem_cons_self _ _), if_false]
    exact ih (fun b hb => h b (List.mem_cons_of_mem _ hb))

theorem callback_of_slot (w : World MAX_SAMPLES) (i : Fin MAX_SAMPLES)
    (hinj : Function.Injective w.eff.mPlayers) :
    MusicStoppedCallback (w.eff.mPlayers i) w =
      { eff := { mPlayers := w.eff.mPlayers
                 mLoopTimes :=
                   if w.eff.mLoopTimes i = -1 then w.eff.mLoopTimes
                   else Function.update w.eff.mLoopTimes i (wrapInt32 (w.eff.mLoopTimes i - 1)) }
        audio := { playState :=
                     Function.update w.audio.playState (w.eff.mPlayers i)
                       (if w.eff.mLoopTimes i ≠ 0 then SL_PLAYSTATE_PLAYING
                        else SL_PLAYSTATE_STOPPED)
                   requests :=
                     w.audio.requests ++ (w.eff.mPlayers i, SL_PLAYSTATE_STOPPED) ::
                       (if w.eff.mLoopTimes i ≠ 0 then [(w.eff.mPlayers i, SL_PLAYSTATE_PLAYING)]
                        else []) } } := by
  obtain ⟨as, bs, hsplit, has⟩ := finRange_split i
  have hne : ∀ a ∈ as, w.eff.mPlayers a ≠ w.eff.mPlayers i :=
    fun a ha heq => absurd (hinj heq) (ne_of_lt (has a ha))
  rw [MusicStoppedCallback, hsplit]
  rw [search_skip (w.eff.mPlayers i) as (i :: bs)
    { w with audio :=
        (SetPlayState w.audio (w.eff.mPlayers i) SL_PLAYSTATE_STOPPED SL_RESULT_SUCCESS).1 } hne,
    MusicStoppedCallback.search]
  by_cases h1 : w.eff.mLoopTimes i = -1
  · simp [SetPlayState, h1]
  · by_cases h0 : w.eff.mLoopTimes i = 0
    · simp [SetPlayState, h0]
    · simp [SetPlayState, h0, h1]

theorem wrapInt32_of_range (x : Int) (h1 : -2 ^ 31 ≤ x) (h2 : x < 2 ^ 31) :
    wrapInt32 x = x := by
  unfold wrapInt32
  rw [Int.emod_eq_of_lt (by omega) (by omega)]
  omega

theorem callback_mPlayers (w : World MAX_SAMPLES) (i : Fin MAX_SAMPLES)
    (hinj : Function.Injective w.eff.mPlayers) :
    (MusicStoppedCallback (w.eff.mPlayers i) w).eff.mPlayers = w.eff.mPlayers := by
  rw [callback_of_slot w i hinj]

theorem callback_loopTimes (w : World MAX_SAMPLES) (i : Fin MAX_SAMPLES)
    (hinj : Function.Injective w.eff.mPlayers) :
    (MusicStoppedCallback (w.eff.mPlayers i) w).eff.mLoopTimes i =
      if w.eff.mLoopTimes i = -1 then -1 else wrapInt32 (w.eff.mLoopTimes i - 1) := by
  rw [callback_of_slot w i hinj]
  by_cases h : w.eff.mLoopTimes i = -1
  · simp [h]
  · simp [h]

theorem callback_slotState (w : World MAX_SAMPLES) (i : Fin MAX_SAMPLES)
    (hinj : Function.Injective w.eff.mPlayers) :
    (MusicStoppedCallback (w.eff.mPlayers i) w).slotState i =
      if w.eff.mLoopTimes i ≠ 0 then SL_PLAYSTATE_PLAYING else SL_PLAYSTATE_STOPPED := by
  rw [callback_of_slot w i hinj]
  simp [World.slotState]

theorem callback_requests (w : World MAX_SAMPLES) (i : Fin MAX_SAMPLES)
    (hinj : Function.Injective w.eff.mPlayers) :
    (MusicStoppedCallback (w.eff.mPlayers i) w).audio.requests =
      w.audio.requests ++ (w.eff.mPlayers i, SL_PLAYSTATE_STOPPED) ::
        (if w.eff.mLoopTimes i ≠ 0 then [(w.eff.mPlayers i, SL_PLAYSTATE_PLAYING)] else []) := by
  rw [callback_of_slot w i hinj]

theorem callback_playRequests (w : World MAX_SAMPLES) (i : Fin MAX_SAMPLES)
    (hinj : Function.Injective w.eff.mPlayers) :
    (MusicStoppedCallback (w.eff.mPlayers i) w).playRequests (w.eff.mPlayers i) =
      w.playRequests (w.eff.mPlayers i) + (if w.eff.mLoopTimes i ≠ 0 then 1 else 0) := by
  unfold World.playRequests
  rw [callback_requests w i hinj]
  by_cases h : w.eff.mLoopTimes i = 0
  · simp [h, List.count_cons, SL_PLAYSTATE_STOPPED, SL_PLAYSTATE_PLAYING]
  · simp [h, List.count_cons, SL_PLAYSTATE_STOPPED, SL_PLAYSTATE_PLAYING]

theorem completions_countdown (w : World MAX_SAMPLES) (i : Fin MAX_SAMPLES) (N : Nat)
    (hinj : Function.Injective w.eff.mPlayers) (hc : w.eff.mLoopTimes i = N)
    (hint : (N : Int) < 2 ^ 31) (k : Nat) (hk : k ≤ N) :
    ((MusicStoppedCallback (w.eff.mPlayers i))^[k] w).eff.mPlayers = w.eff.mPlayers ∧
    ((MusicStoppedCallback (w.eff.mPlayers i))^[k] w).eff.mLoopTimes i = (N : Int) - k ∧
    ((MusicStoppedCallback (w.eff.mPlayers i))^[k] w).playRequests (w.eff.mPlayers i) =
      w.playRequests (w.eff.mPlayers i) + k ∧
    (1 ≤ k →
      ((MusicStoppedCallback (w.eff.mPlayers i))^[k] w).slotState i = SL_PLAYSTATE_PLAYING) := by
  induction k with
  | zero => simp [hc]
  | succ k ih =>
    obtain ⟨hp, hl, hr, _⟩ := ih (by omega)
    rw [Function.iterate_succ_apply']
    generalize (MusicStoppedCallback (w.eff.mPlayers i))^[k] w = wk at hp hl hr
    have hinjk : Function.Injective wk.eff.mPlayers := by rw [hp]; exact hinj
    have hh : w.eff.mPlayers i = wk.eff.mPlayers i := by rw [hp]
    have hne0 : wk.eff.mLoopTimes i ≠ 0 := by rw [hl]; omega
    have hne1 : wk.eff.mLoopTimes i ≠ -1 := by rw [hl]; omega
    rw [hh]
    refine ⟨?_, ?_, ?_, ?_⟩
    · rw [callback_mPlayers wk i hinjk, hp]
    · rw [callback_loopTimes wk i hinjk, if_neg hne1, hl,
        wrapInt32_of_range _ (by omega) (by omega)]
      push_cast; ring
    · rw [callback_playRequests wk i hinjk, if_pos hne0, ← hh, hr]; ring
    · intro _
      rw [callback_slotState wk i hinjk, if_pos hne0]

theorem completions_forever (w : World MAX_SAMPLES) (i : Fin MAX_SAMPLES)
    (hinj : Function.Injective w.eff.mPlayers) (hc : w.eff.mLoopTimes i = -1) (k : Nat) :
    ((MusicStoppedCallback (w.eff.mPlayers i))^[k] w).eff.mPlayers = w.eff.mPlayers ∧
    ((MusicStoppedCallback (w.eff.mPlayers i))^[k] w).eff.mLoopTimes i = -1 := by
  induction k with
  | zero => simp [hc]
  | succ k ih =>
    obtain ⟨hp, hl⟩ := ih
    rw [Function.iterate_succ_apply']
    generalize (MusicStoppedCallback (w.eff.mPlayers i))^[k] w = wk at hp hl
    have hinjk : Function.Injective wk.eff.mPlayers := by rw [hp]; exact hinj
    have hh : w.eff.mPlayers i = wk.eff.mPlayers i := by rw [hp]
    rw [hh]
    exact ⟨by rw [callback_mPlayers wk i hinjk, hp],
      by rw [callback_loopTimes wk i hinjk, if_pos hl]⟩

/-- C7: after `Stop()` every slot of the pool is in the stopped state, whatever
the states were before. -/
theorem Stop_all_stopped (w : World MAX_SAMPLES) (i : Fin MAX_SAMPLES) :
    (Stop w).slotState i = SL_PLAYSTATE_STOPPED := by
  unfold World.slotState Stop
  rw [Stop_fold_playState, Stop_fold_eff, if_pos]
  exact List.mem_map.mpr ⟨i, List.mem_finRange i, rfl⟩

/-- C2: with the native calls succeeding, `Play(loopTime)` stores `loopTime` in
the lowest-index stopped slot and sets that slot to playing, leaving the play
state and the stored loop count of every other slot as they were; when no slot
is stopped the pool is left as it was. -/
theorem Play_starts_lowest_stopped (w : World MAX_SAMPLES) (loopTime : Int)
    (hinj : Function.Injective w.eff.mPlayers) :
    (∀ i : Fin MAX_SAMPLES, w.slotState i = SL_PLAYSTATE_STOPPED →
        (∀ j, j < i → w.slotState j ≠ SL_PLAYSTATE_STOPPED) →
        (Play loopTime SL_RESULT_SUCCESS w).eff.mLoopTimes i = loopTime ∧
        (Play loopTime SL_RESULT_SUCCESS w).slotState i = SL_PLAYSTATE_PLAYING ∧
        ∀ j, j ≠ i →
          (Play loopTime SL_RESULT_SUCCESS w).slotState j = w.slotState j ∧
          (Play loopTime SL_RESULT_SUCCESS w).eff.mLoopTimes j = w.eff.mLoopTimes j) ∧
    ((∀ j, w.slotState j ≠ SL_PLAYSTATE_STOPPED) →
        ∀ j, (Play loopTime SL_RESULT_SUCCESS w).slotState j = w.slotState j ∧
          (Play loopTime SL_RESULT_SUCCESS w).eff.mLoopTimes j = w.eff.mLoopTimes j) := by
  constructor
  · intro i hi hlow
    rw [Play_of_lowest loopTime w i hi hlow]
    refine ⟨by simp, by simp [World.slotState], ?_⟩
    intro j hj
    have hne : w.eff.mPlayers j ≠ w.eff.mPlayers i := fun h => hj (hinj h)
    exact ⟨by simp [World.slotState, hne], by simp [hj]⟩
  · intro hbusy j
    rw [Play_of_busy loopTime _ w hbusy]
    exact ⟨rfl, rfl⟩

/-- C6: for a slot whose stored loop count is 0, the completion callback leaves
the slot stopped, and the only request it issues is the one to stop it: no
request to play. -/
theorem callback_play_once_stays_stopped (w : World MAX_SAMPLES) (i : Fin MAX_SAMPLES)
    (hinj : Function.Injective w.eff.mPlayers) (hc : w.eff.mLoopTimes i = 0) :
    (MusicStoppedCallback (w.eff.mPlayers i) w).slotState i = SL_PLAYSTATE_STOPPED ∧
    (MusicStoppedCallback (w.eff.mPlayers i) w).audio.requests =
      w.audio.requests ++ [(w.eff.mPlayers i, SL_PLAYSTATE_STOPPED)] ∧
    (MusicStoppedCallback (w.eff.mPlayers i) w).playRequests (w.eff.mPlayers i) =
      w.playRequests (w.eff.mPlayers i) := by
  refine ⟨?_, ?_, ?_⟩
  · rw [callback_slotState w i hinj]; simp [hc]
  · rw [callback_requests w i hinj]; simp [hc]
  · rw [callback_playRequests w i hinj]; simp [hc]

/-- C10: for a slot whose stored loop count is 0, the completion callback leaves
the stored count at -1; a second completion callback for the same slot then
sets the slot to playing and keeps the count at -1. -/
theorem callback_play_once_leaves_sentinel (w : World MAX_SAMPLES) (i : Fin MAX_SAMPLES)
    (hinj : Function.Injective w.eff.mPlayers) (hc : w.eff.mLoopTimes i = 0) :
    (MusicStoppedCallback (w.eff.mPlayers i) w).eff.mLoopTimes i = -1 ∧
    (MusicStoppedCallback (w.eff.mPlayers i)
      (MusicStoppedCallback (w.eff.mPlayers i) w)).slotState i = SL_PLAYSTATE_PLAYING ∧
    (MusicStoppedCallback (w.eff.mPlayers i)
      (MusicStoppedCallback (w.eff.mPlayers i) w)).eff.mLoopTimes i = -1 ∧
    (MusicStoppedCallback (w.eff.mPlayers i)
      (MusicStoppedCallback (w.eff.mPlayers i) w)).playRequests (w.eff.mPlayers i) =
      w.playRequests (w.eff.mPlayers i) + 1 := by
  have h1 : (MusicStoppedCallback (w.eff.mPlayers i) w).eff.mLoopTimes i = -1 := by
    rw [callback_loopTimes w i hinj, hc]; decide
  have hr1 := callback_playRequests w i hinj
  have hp := callback_mPlayers w i hinj
  generalize MusicStoppedCallback (w.eff.mPlayers i) w = w1 at h1 hp hr1
  have hinj1 : Function.Injective w1.eff.mPlayers := by rw [hp]; exact hinj
  have hh : w.eff.mPlayers i = w1.eff.mPlayers i := by rw [hp]
  refine ⟨h1, ?_, ?_, ?_⟩
  · rw [hh, callback_slotState w1 i hinj1, h1]; simp
  · rw [hh, callback_loopTimes w1 i hinj1, if_pos h1]
  · rw [hh, callback_playRequests w1 i hinj1, h1, ← hh, hr1, hc]; simp

/-- C5: for a slot whose stored loop count is -1, after any number `k` of
completion callbacks the stored count is still -1, and the next callback sets
the slot to playing, issues one request to play and leaves the count at -1. -/
theorem callback_infinite_loop_replays (w : World MAX_SAMPLES) (i : Fin MAX_SAMPLES)
    (hinj : Function.Injective w.eff.mPlayers) (hc : w.eff.mLoopTimes i = -1) (k : Nat) :
    (completions (w.eff.mPlayers i) k w).eff.mLoopTimes i = -1 ∧
    (completions (w.eff.mPlayers i) (k + 1) w).slotState i = SL_PLAYSTATE_PLAYING ∧
    (completions (w.eff.mPlayers i) (k + 1) w).eff.mLoopTimes i = -1 ∧
    (completions (w.eff.mPlayers i) (k + 1) w).playRequests (w.eff.mPlayers i) =
      (completions (w.eff.mPlayers i) k w).playRequests (w.eff.mPlayers i) + 1 := by
  unfold completions
  obtain ⟨hp, hl⟩ := completions_forever w i hinj hc k
  have hl' := (completions_forever w i hinj hc (k + 1)).2
  refine ⟨hl, ?_, hl', ?_⟩
  · rw [Function.iterate_succ_apply']
    generalize (MusicStoppedCallback (w.eff.mPlayers i))^[k] w = wk at hp hl
    have hinjk : Function.Injective wk.eff.mPlayers := by rw [hp]; exact hinj
    have hh : w.eff.mPlayers i = wk.eff.mPlayers i := by rw [hp]
    rw [hh, callback_slotState wk i hinjk, hl]; simp
  · rw [Function.iterate_succ_apply']
    generalize (MusicStoppedCallback (w.eff.mPlayers i))^[k] w = wk at hp hl
    have hinjk : Function.Injective wk.eff.mPlayers := by rw [hp]; exact hinj
    have hh : w.eff.mPlayers i = wk.eff.mPlayers i := by rw [hp]
    rw [hh, callback_playRequests wk i hinjk, hl]; simp

/-- C1: a slot that `Play(N)` has just started is set back to playing by each of
the first `N` completion callbacks (each issues one request to play), and the
callback number `N + 1` issues no request to play and leaves the slot stopped;
counting the `Play` call, the clip is started `N + 1` times.  This holds for
every loop count `N` of the `int` range from 0 on, so for every `N > 0`. -/
theorem Play_then_completions_replay_N_times (w0 : World MAX_SAMPLES) (N : Nat)
    (i : Fin MAX_SAMPLES) (hinj : Function.Injective w0.eff.mPlayers)
    (hint : (N : Int) < 2 ^ 31)
    (hi : w0.slotState i = SL_PLAYSTATE_STOPPED)
    (hlow : ∀ j, j < i → w0.slotState j ≠ SL_PLAYSTATE_STOPPED) :
    (Play N SL_RESULT_SUCCESS w0).eff.mLoopTimes i = N ∧
    (Play N SL_RESULT_SUCCESS w0).slotState i = SL_PLAYSTATE_PLAYING ∧
    (∀ k, k < N →
      (completions (w0.eff.mPlayers i) (k + 1) (Play N SL_RESULT_SUCCESS w0)).slotState i =
        SL_PLAYSTATE_PLAYING ∧
      (completions (w0.eff.mPlayers i) (k + 1) (Play N SL_RESULT_SUCCESS w0)).playRequests
          (w0.eff.mPlayers i) =
        (completions (w0.eff.mPlayers i) k (Play N SL_RESULT_SUCCESS w0)).playRequests
          (w0.eff.mPlayers i) + 1) ∧
    (completions (w0.eff.mPlayers i) (N + 1) (Play N SL_RESULT_SUCCESS w0)).slotState i =
      SL_PLAYSTATE_STOPPED ∧
    (completions (w0.eff.mPlayers i) (N + 1) (Play N SL_RESULT_SUCCESS w0)).playRequests
        (w0.eff.mPlayers i) =
      (completions (w0.eff.mPlayers i) N (Play N SL_RESULT_SUCCESS w0)).playRequests
        (w0.eff.mPlayers i) ∧
    (completions (w0.eff.mPlayers i) (N + 1) (Play N SL_RESULT_SUCCESS w0)).playRequests
        (w0.eff.mPlayers i) =
      w0.playRequests (w0.eff.mPlayers i) + (N + 1) := by
  have hplay := Play_of_lowest (N : Int) w0 i hi hlow
  have hp : (Play N SL_RESULT_SUCCESS w0).eff.mPlayers = w0.eff.mPlayers := by rw [hplay]
  have hl : (Play N SL_RESULT_SUCCESS w0).eff.mLoopTimes i = N := by rw [hplay]; simp
  have hs : (Play N SL_RESULT_SUCCESS w0).slotState i = SL_PLAYSTATE_PLAYING := by
    rw [hplay]; simp [World.slotState]
  have hr : (Play N SL_RESULT_SUCCESS w0).playRequests (w0.eff.mPlayers i) =
      w0.playRequests (w0.eff.mPlayers i) + 1 := by
    rw [hplay]; simp [World.playRequests]
  generalize Play N SL_RESULT_SUCCESS w0 = w at hp hl hs hr
  have hinjw : Function.Injective w.eff.mPlayers := by rw [hp]; exact hinj
  have hh : w0.eff.mPlayers i = w.eff.mPlayers i := by rw [hp]
  rw [hh] at hr ⊢
  unfold completions
  -- the last callback, made on the world after `N` callbacks
  obtain ⟨hpN, hlN, hrN, _⟩ := completions_countdown w i N hinjw hl hint N (le_refl N)
  have hlast : ∀ wN : World MAX_SAMPLES, wN.eff.mPlayers = w.eff.mPlayers →
      wN.eff.mLoopTimes i = 0 →
      (MusicStoppedCallback (w.eff.mPlayers i) wN).slotState i = SL_PLAYSTATE_STOPPED ∧
      (MusicStoppedCallback (w.eff.mPlayers i) wN).playRequests (w.eff.mPlayers i) =
        wN.playRequests (w.eff.mPlayers i) := by
    intro wN hpN hlN
    have hinjN : Function.Injective wN.eff.mPlayers := by rw [hpN]; exact hinjw
    have hhN : w.eff.mPlayers i = wN.eff.mPlayers i := by rw [hpN]
    rw [hhN]
    exact ⟨by rw [callback_slotState wN i hinjN, hlN]; simp,
      by rw [callback_playRequests wN i hinjN, hlN]; simp⟩
  have hfin := hlast _ hpN (by rw [hlN]; simp)
  refine ⟨hl, hs, ?_, ?_, ?_, ?_⟩
  · intro k hk
    obtain ⟨_, _, hr1, hs1⟩ := completions_countdown w i N hinjw hl hint (k + 1) hk
    obtain ⟨_, _, hr0, _⟩ := completions_countdown w i N hinjw hl hint k (by omega)
    exact ⟨hs1 (by omega), by rw [hr1, hr0]; ring⟩
  · rw [Function.iterate_succ_apply']; exact hfin.1
  · rw [Function.iterate_succ_apply']; exact hfin.2
  · rw [Function.iterate_succ_apply', hfin.2, hrN, hr]; ring

/-- C9, as amended: for a slot whose stored loop count is a positive `N`, the
completion callback decrements the stored count to `N - 1` and sets the slot
to playing, also when `N - 1` is zero: the replay is decided on the count
before the decrement. -/
theorem callback_positive_count_decrements_and_replays (w : World MAX_SAMPLES)
    (i : Fin MAX_SAMPLES) (N : Int) (hinj : Function.Injective w.eff.mPlayers)
    (hc : w.eff.mLoopTimes i = N) (hpos : 0 < N) (hint : N < 2 ^ 31) :
    (MusicStoppedCallback (w.eff.mPlayers i) w).eff.mLoopTimes i = N - 1 ∧
    (MusicStoppedCallback (w.eff.mPlayers i) w).slotState i = SL_PLAYSTATE_PLAYING ∧
    (MusicStoppedCallback (w.eff.mPlayers i) w).audio.requests =
      w.audio.requests ++
        [(w.eff.mPlayers i, SL_PLAYSTATE_STOPPED), (w.eff.mPlayers i, SL_PLAYSTATE_PLAYING)] := by
  have hne0 : w.eff.mLoopTimes i ≠ 0 := by rw [hc]; omega
  have hne1 : w.eff.mLoopTimes i ≠ -1 := by rw [hc]; omega
  refine ⟨?_, ?_, ?_⟩
  · rw [callback_loopTimes w i hinj, if_neg hne1, hc,
      wrapInt32_of_range _ (by omega) (by omega)]
  · rw [callback_slotState w i hinj, if_pos hne0]
  · rw [callback_requests w i hinj, if_pos hne0]

/-- C9, counterexample: in a pool whose slot 0 has the stored loop count 1, the
completion callback decrements the count to 0 and yet sets the slot to
playing, so the replay does not depend on the decremented value being
nonzero. -/
theorem callback_replay_not_gated_on_decremented :
    (examplePool 2 [SL_PLAYSTATE_PLAYING, SL_PLAYSTATE_STOPPED] [1, 0]).eff.mLoopTimes 0 = 1 ∧
    (MusicStoppedCallback 0
      (examplePool 2 [SL_PLAYSTATE_PLAYING, SL_PLAYSTATE_STOPPED] [1, 0])).eff.mLoopTimes 0
        = 1 - 1 ∧
    ¬ ((MusicStoppedCallback 0
        (examplePool 2 [SL_PLAYSTATE_PLAYING, SL_PLAYSTATE_STOPPED] [1, 0])).slotState 0
          = SL_PLAYSTATE_PLAYING ↔ (1 : Int) - 1 ≠ 0) := by
  decide

theorem exists_lowest_stopped (w : World MAX_SAMPLES)
    (h : ∃ i, w.slotState i = SL_PLAYSTATE_STOPPED) :
    ∃ i, w.slotState i = SL_PLAYSTATE_STOPPED ∧
      ∀ j, j < i → w.slotState j ≠ SL_PLAYSTATE_STOPPED := by
  obtain ⟨i, hi, hmin⟩ :=
    wellFounded_lt.has_min {i : Fin MAX_SAMPLES | w.slotState i = SL_PLAYSTATE_STOPPED} h
  exact ⟨i, hi, fun j hj hs => hmin j hs hj⟩

theorem stoppedCount_pos_iff (w : World MAX_SAMPLES) :
    0 < w.stoppedCount ↔ ∃ i, w.slotState i = SL_PLAYSTATE_STOPPED := by
  unfold World.stoppedCount
  rw [Finset.card_pos]
  constructor
  · rintro ⟨i, hi⟩
    exact ⟨i, (Finset.mem_filter.mp hi).2⟩
  · rintro ⟨i, hi⟩
    exact ⟨i, Finset.mem_filter.mpr ⟨Finset.mem_univ i, hi⟩⟩

theorem Play_one_started (w : World MAX_SAMPLES) (loopTime : Int)
    (hinj : Function.Injective w.eff.mPlayers) (hpos : 0 < w.stoppedCount) :
    (Play loopTime SL_RESULT_SUCCESS w).eff.mPlayers = w.eff.mPlayers ∧
    (Play loopTime SL_RESULT_SUCCESS w).stoppedCount + 1 = w.stoppedCount ∧
    ExactlyOneStarted w (Play loopTime SL_RESULT_SUCCESS w) := by
  obtain ⟨i, hi, hlow⟩ := exists_lowest_stopped w ((stoppedCount_pos_iff w).mp hpos)
  have hplay := Play_of_lowest loopTime w i hi hlow
  have hsi : (Play loopTime SL_RESULT_SUCCESS w).slotState i = SL_PLAYSTATE_PLAYING := by
    rw [hplay]; simp [World.slotState]
  have hsj : ∀ j, j ≠ i → (Play loopTime SL_RESULT_SUCCESS w).slotState j = w.slotState j := by
    intro j hj
    have hne : w.eff.mPlayers j ≠ w.eff.mPlayers i := fun h => hj (hinj h)
    rw [hplay]; simp [World.slotState, hne]
  refine ⟨by rw [hplay], ?_, ⟨i, ?_, hsi, hsj⟩⟩
  · unfold World.stoppedCount
    have hset : Finset.univ.filter
          (fun j => (Play loopTime SL_RESULT_SUCCESS w).slotState j = SL_PLAYSTATE_STOPPED) =
        (Finset.univ.filter (fun j => w.slotState j = SL_PLAYSTATE_STOPPED)).erase i := by
      ext j
      simp only [Finset.mem_filter, Finset.mem_univ, true_and, Finset.mem_erase]
      by_cases hj : j = i
      · subst hj; simp [hsi, SL_PLAYSTATE_PLAYING, SL_PLAYSTATE_STOPPED]
      · simp [hsj j hj, hj]
    have hmem : i ∈ Finset.univ.filter (fun j => w.slotState j = SL_PLAYSTATE_STOPPED) :=
      Finset.mem_filter.mpr ⟨Finset.mem_univ i, hi⟩
    rw [hset, Finset.card_erase_of_mem hmem]
    have := Finset.card_pos.mpr ⟨i, hmem⟩
    omega
  · rw [hi]; decide

theorem PlayAll_append_one (loops : List Int) (loopTime : Int) (w : World MAX_SAMPLES) :
    PlayAll (loops ++ [loopTime]) w = Play loopTime SL_RESULT_SUCCESS (PlayAll loops w) := by
  simp [PlayAll, List.foldl_append]

theorem Play_mPlayers (w : World MAX_SAMPLES) (loopTime : Int) :
    (Play loopTime SL_RESULT_SUCCESS w).eff.mPlayers = w.eff.mPlayers := by
  by_cases h : ∃ i, w.slotState i = SL_PLAYSTATE_STOPPED
  · obtain ⟨i, hi, hlow⟩ := exists_lowest_stopped w h
    rw [Play_of_lowest loopTime w i hi hlow]
  · rw [Play_of_busy loopTime _ w (fun j hj => h ⟨j, hj⟩)]

theorem PlayAll_mPlayers (loops : List Int) (w : World MAX_SAMPLES) :
    (PlayAll loops w).eff.mPlayers = w.eff.mPlayers := by
  induction loops using List.reverseRecOn with
  | nil => rfl
  | append_singleton ls l ih => rw [PlayAll_append_one, Play_mPlayers, ih]

theorem PlayAll_stoppedCount (loops : List Int) (w : World MAX_SAMPLES)
    (hinj : Function.Injective w.eff.mPlayers) (hlen : loops.length ≤ w.stoppedCount) :
    (PlayAll loops w).eff.mPlayers = w.eff.mPlayers ∧
    (PlayAll loops w).stoppedCount + loops.length = w.stoppedCount := by
  induction loops using List.reverseRecOn with
  | nil => exact ⟨rfl, rfl⟩
  | append_singleton ls l ih =>
    rw [List.length_append, List.length_singleton] at hlen ⊢
    obtain ⟨hp, hcnt⟩ := ih (by omega)
    rw [PlayAll_append_one]
    have hinj' : Function.Injective (PlayAll ls w).eff.mPlayers := by rw [hp]; exact hinj
    obtain ⟨hp1, hc1, _⟩ := Play_one_started (PlayAll ls w) l hinj' (by omega)
    exact ⟨by rw [hp1, hp], by omega⟩

/-- C3, counterexample: in a pool of two players that are both playing, fewer
than `MAX_SAMPLES` players are stopped, and a `Play` call starts no player. -/
theorem Play_on_busy_pool_starts_nothing :
    (examplePool 2 [SL_PLAYSTATE_PLAYING, SL_PLAYSTATE_PLAYING] [0, 0]).stoppedCount < 2 ∧
    ¬ ExactlyOneStarted (examplePool 2 [SL_PLAYSTATE_PLAYING, SL_PLAYSTATE_PLAYING] [0, 0])
        (PlayAll [0] (examplePool 2 [SL_PLAYSTATE_PLAYING, SL_PLAYSTATE_PLAYING] [0, 0])) := by
  refine ⟨by decide, ?_⟩
  rintro ⟨i, h1, h2, _⟩
  have hbusy : ∀ j, (examplePool 2 [SL_PLAYSTATE_PLAYING, SL_PLAYSTATE_PLAYING]
      [0, 0]).slotState j ≠ SL_PLAYSTATE_STOPPED := by decide
  have hP : PlayAll [0] (examplePool 2 [SL_PLAYSTATE_PLAYING, SL_PLAYSTATE_PLAYING] [0, 0]) =
      examplePool 2 [SL_PLAYSTATE_PLAYING, SL_PLAYSTATE_PLAYING] [0, 0] :=
    Play_of_busy 0 SL_RESULT_SUCCESS _ hbusy
  rw [hP] at h2
  exact h1 h2

/-- C3, as amended: in a sequence of `Play` calls started from any pool state,
every native call succeeding, each `Play` call made while at least one player
is stopped makes exactly one more player go to playing and changes the play
state of no other player; with `m` players stopped at the start this is the
case for each of the first `m` calls. -/
theorem PlayAll_each_call_starts_one (w : World MAX_SAMPLES) (loops : List Int)
    (hinj : Function.Injective w.eff.mPlayers) (k : Nat) (hk : k < loops.length) :
    (0 < (PlayAll (loops.take k) w).stoppedCount →
      ExactlyOneStarted (PlayAll (loops.take k) w) (PlayAll (loops.take (k + 1)) w)) ∧
    (k < w.stoppedCount → 0 < (PlayAll (loops.take k) w).stoppedCount) := by
  have htake : loops.take (k + 1) = loops.take k ++ [loops[k]] := by
    rw [List.take_succ, List.getElem?_eq_getElem hk]; rfl
  have hlk : (loops.take k).length = k := by rw [List.length_take]; omega
  constructor
  · intro hpos
    rw [htake, PlayAll_append_one]
    have hinj' : Function.Injective (PlayAll (loops.take k) w).eff.mPlayers := by
      rw [PlayAll_mPlayers]; exact hinj
    exact (Play_one_started _ _ hinj' hpos).2.2
  · intro hlt
    have hcnt := (PlayAll_stoppedCount (loops.take k) w hinj (by omega)).2
    omega

theorem Pause_success_changes_nothing (w : World MAX_SAMPLES) :
    Pause (fun _ => SL_RESULT_SUCCESS) w = w := by
  unfold Pause
  generalize List.finRange MAX_SAMPLES = l
  induction l with
  | nil => rfl
  | cons i rest ih =>
    rw [List.foldl_cons]
    have hb : Pause.body (fun _ => SL_RESULT_SUCCESS) w i = w := by
      simp [Pause.body, GetPlayState, SL_RESULT_SUCCESS, SL_PLAYSTATE_PLAYING]
    rw [hb, ih]

/-- C4, the code at the failing input: in a pool whose slot 0 is playing,
`Pause()` with every native call succeeding leaves slot 0 playing. -/
theorem Pause_leaves_playing_slot_playing :
    (examplePool 2 [SL_PLAYSTATE_PLAYING, SL_PLAYSTATE_STOPPED] [0, 0]).slotState 0 =
      SL_PLAYSTATE_PLAYING ∧
    (Pause (fun _ => SL_RESULT_SUCCESS)
      (examplePool 2 [SL_PLAYSTATE_PLAYING, SL_PLAYSTATE_STOPPED] [0, 0])).slotState 0 =
      SL_PLAYSTATE_PLAYING ∧
    (Pause (fun _ => SL_RESULT_SUCCESS)
      (examplePool 2 [SL_PLAYSTATE_PLAYING, SL_PLAYSTATE_STOPPED] [0, 0])).audio.requests = [] := by
  decide

theorem examplePool_injective (n : Nat) (states : List SLuint32) (loops : List Int) :
    Function.Injective (examplePool n states loops).eff.mPlayers :=
  fun _ _ h => Fin.val_injective h

theorem Play_then_completions_replay_N_times_witness :
    Function.Injective
      (examplePool 3 [SL_PLAYSTATE_PLAYING, SL_PLAYSTATE_STOPPED, SL_PLAYSTATE_STOPPED]
        [0, 0, 0]).eff.mPlayers ∧
    ((2 : Nat) : Int) < 2 ^ 31 ∧
    (examplePool 3 [SL_PLAYSTATE_PLAYING, SL_PLAYSTATE_STOPPED, SL_PLAYSTATE_STOPPED]
      [0, 0, 0]).slotState 1 = SL_PLAYSTATE_STOPPED ∧
    (completions 1 1 (Play ((2 : Nat) : Int) SL_RESULT_SUCCESS
      (examplePool 3 [SL_PLAYSTATE_PLAYING, SL_PLAYSTATE_STOPPED, SL_PLAYSTATE_STOPPED]
        [0, 0, 0]))).slotState 1 = SL_PLAYSTATE_PLAYING ∧
    (completions 1 2 (Play ((2 : Nat) : Int) SL_RESULT_SUCCESS
      (examplePool 3 [SL_PLAYSTATE_PLAYING, SL_PLAYSTATE_STOPPED, SL_PLAYSTATE_STOPPED]
        [0, 0, 0]))).slotState 1 = SL_PLAYSTATE_PLAYING ∧
    (completions 1 3 (Play ((2 : Nat) : Int) SL_RESULT_SUCCESS
      (examplePool 3 [SL_PLAYSTATE_PLAYING, SL_PLAYSTATE_STOPPED, SL_PLAYSTATE_STOPPED]
        [0, 0, 0]))).slotState 1 = SL_PLAYSTATE_STOPPED ∧
    (completions 1 3 (Play ((2 : Nat) : Int) SL_RESULT_SUCCESS
      (examplePool 3 [SL_PLAYSTATE_PLAYING, SL_PLAYSTATE_STOPPED, SL_PLAYSTATE_STOPPED]
        [0, 0, 0]))).playRequests 1 = 3 := by
  have h := Play_then_completions_replay_N_times
    (examplePool 3 [SL_PLAYSTATE_PLAYING, SL_PLAYSTATE_STOPPED, SL_PLAYSTATE_STOPPED] [0, 0, 0])
    2 1 (examplePool_injective _ _ _) (by decide) (by decide) (by decide)
  exact ⟨examplePool_injective _ _ _, by decide, by decide,
    (h.2.2.1 0 (by decide)).1, (h.2.2.1 1 (by decide)).1, h.2.2.2.1, h.2.2.2.2.2⟩

theorem Play_starts_lowest_stopped_witness :
    Function.Injective
      (examplePool 3 [SL_PLAYSTATE_PLAYING, SL_PLAYSTATE_STOPPED, SL_PLAYSTATE_STOPPED]
        [0, 0, 0]).eff.mPlayers ∧
    (examplePool 3 [SL_PLAYSTATE_PLAYING, SL_PLAYSTATE_STOPPED, SL_PLAYSTATE_STOPPED]
      [0, 0, 0]).slotState 1 = SL_PLAYSTATE_STOPPED ∧
    (Play 5 SL_RESULT_SUCCESS
      (examplePool 3 [SL_PLAYSTATE_PLAYING, SL_PLAYSTATE_STOPPED, SL_PLAYSTATE_STOPPED]
        [0, 0, 0])).eff.mLoopTimes 1 = 5 ∧
    (Play 5 SL_RESULT_SUCCESS
      (examplePool 3 [SL_PLAYSTATE_PLAYING, SL_PLAYSTATE_STOPPED, SL_PLAYSTATE_STOPPED]
        [0, 0, 0])).slotState 1 = SL_PLAYSTATE_PLAYING ∧
    (Play 5 SL_RESULT_SUCCESS
      (examplePool 3 [SL_PLAYSTATE_PLAYING, SL_PLAYSTATE_STOPPED, SL_PLAYSTATE_STOPPED]
        [0, 0, 0])).slotState 2 = SL_PLAYSTATE_STOPPED ∧
    (Play 5 SL_RESULT_SUCCESS
      (examplePool 3 [SL_PLAYSTATE_PLAYING, SL_PLAYSTATE_PAUSED, SL_PLAYSTATE_PLAYING]
        [0, 7, 0])).eff.mLoopTimes 1 = 7 := by
  have h := (Play_starts_lowest_stopped
    (examplePool 3 [SL_PLAYSTATE_PLAYING, SL_PLAYSTATE_STOPPED, SL_PLAYSTATE_STOPPED] [0, 0, 0])
    5 (examplePool_injective _ _ _)).1 1 (by decide) (by decide)
  have hb := (Play_starts_lowest_stopped
    (examplePool 3 [SL_PLAYSTATE_PLAYING, SL_PLAYSTATE_PAUSED, SL_PLAYSTATE_PLAYING] [0, 7, 0])
    5 (examplePool_injective _ _ _)).2 (by decide) 1
  exact ⟨examplePool_injective _ _ _, by decide, h.1, h.2.1, (h.2.2 2 (by decide)).1, hb.2⟩

theorem PlayAll_each_call_starts_one_witness :
    Function.Injective
      (examplePool 3 [SL_PLAYSTATE_PLAYING, SL_PLAYSTATE_STOPPED, SL_PLAYSTATE_STOPPED]
        [0, 0, 0]).eff.mPlayers ∧
    1 < [(4 : Int), 0, 2].length ∧
    1 < (examplePool 3 [SL_PLAYSTATE_PLAYING, SL_PLAYSTATE_STOPPED, SL_PLAYSTATE_STOPPED]
      [0, 0, 0]).stoppedCount ∧
    0 < (PlayAll ([(4 : Int), 0, 2].take 1)
      (examplePool 3 [SL_PLAYSTATE_PLAYING, SL_PLAYSTATE_STOPPED, SL_PLAYSTATE_STOPPED]
        [0, 0, 0])).stoppedCount ∧
    ExactlyOneStarted
      (PlayAll ([(4 : Int), 0, 2].take 1)
        (examplePool 3 [SL_PLAYSTATE_PLAYING, SL_PLAYSTATE_STOPPED, SL_PLAYSTATE_STOPPED]
          [0, 0, 0]))
      (PlayAll ([(4 : Int), 0, 2].take (1 + 1))
        (examplePool 3 [SL_PLAYSTATE_PLAYING, SL_PLAYSTATE_STOPPED, SL_PLAYSTATE_STOPPED]
          [0, 0, 0])) := by
  have h := PlayAll_each_call_starts_one
    (examplePool 3 [SL_PLAYSTATE_PLAYING, SL_PLAYSTATE_STOPPED, SL_PLAYSTATE_STOPPED] [0, 0, 0])
    [4, 0, 2] (examplePool_injective _ _ _) 1 (by decide)
  exact ⟨examplePool_injective _ _ _, by decide, by decide, h.2 (by decide),
    h.1 (h.2 (by decide))⟩

theorem callback_infinite_loop_replays_witness :
    Function.Injective
      (examplePool 2 [SL_PLAYSTATE_PLAYING, SL_PLAYSTATE_STOPPED] [-1, 0]).eff.mPlayers ∧
    (examplePool 2 [SL_PLAYSTATE_PLAYING, SL_PLAYSTATE_STOPPED] [-1, 0]).eff.mLoopTimes 0 = -1 ∧
    (completions 0 (4 + 1)
      (examplePool 2 [SL_PLAYSTATE_PLAYING, SL_PLAYSTATE_STOPPED] [-1, 0])).slotState 0 =
        SL_PLAYSTATE_PLAYING ∧
    (completions 0 (4 + 1)
      (examplePool 2 [SL_PLAYSTATE_PLAYING, SL_PLAYSTATE_STOPPED] [-1, 0])).eff.mLoopTimes 0 =
        -1 := by
  have h := callback_infinite_loop_replays
    (examplePool 2 [SL_PLAYSTATE_PLAYING, SL_PLAYSTATE_STOPPED] [-1, 0]) 0
    (examplePool_injective _ _ _) (by decide) 4
  exact ⟨examplePool_injective _ _ _, by decide, h.2.1, h.2.2.1⟩

theorem callback_play_once_stays_stopped_witness :
    Function.Injective
      (examplePool 2 [SL_PLAYSTATE_PLAYING, SL_PLAYSTATE_STOPPED] [0, 0]).eff.mPlayers ∧
    (examplePool 2 [SL_PLAYSTATE_PLAYING, SL_PLAYSTATE_STOPPED] [0, 0]).eff.mLoopTimes 0 = 0 ∧
    (MusicStoppedCallback 0
      (examplePool 2 [SL_PLAYSTATE_PLAYING, SL_PLAYSTATE_STOPPED] [0, 0])).slotState 0 =
        SL_PLAYSTATE_STOPPED ∧
    (MusicStoppedCallback 0
      (examplePool 2 [SL_PLAYSTATE_PLAYING, SL_PLAYSTATE_STOPPED] [0, 0])).audio.requests =
        [] ++ [(0, SL_PLAYSTATE_STOPPED)] := by
  have h := callback_play_once_stays_stopped
    (examplePool 2 [SL_PLAYSTATE_PLAYING, SL_PLAYSTATE_STOPPED] [0, 0]) 0
    (examplePool_injective _ _ _) (by decide)
  exact ⟨examplePool_injective _ _ _, by decide, h.1, h.2.1⟩

theorem callback_positive_count_decrements_and_replays_witness :
    Function.Injective
      (examplePool 2 [SL_PLAYSTATE_PLAYING, SL_PLAYSTATE_STOPPED] [1, 0]).eff.mPlayers ∧
    (examplePool 2 [SL_PLAYSTATE_PLAYING, SL_PLAYSTATE_STOPPED] [1, 0]).eff.mLoopTimes 0 = 1 ∧
    (0 : Int) < 1 ∧ (1 : Int) < 2 ^ 31 ∧
    (MusicStoppedCallback 0
      (examplePool 2 [SL_PLAYSTATE_PLAYING, SL_PLAYSTATE_STOPPED] [1, 0])).eff.mLoopTimes 0 =
        1 - 1 ∧
    (MusicStoppedCallback 0
      (examplePool 2 [SL_PLAYSTATE_PLAYING, SL_PLAYSTATE_STOPPED] [1, 0])).slotState 0 =
        SL_PLAYSTATE_PLAYING := by
  have h := callback_positive_count_decrements_and_replays
    (examplePool 2 [SL_PLAYSTATE_PLAYING, SL_PLAYSTATE_STOPPED] [1, 0]) 0 1
    (examplePool_injective _ _ _) (by decide) (by decide) (by decide)
  exact ⟨examplePool_injective _ _ _, by decide, by decide, by decide, h.1, h.2.1⟩

theorem callback_play_once_leaves_sentinel_witness :
    Function.Injective
      (examplePool 2 [SL_PLAYSTATE_PLAYING, SL_PLAYSTATE_STOPPED] [0, 0]).eff.mPlayers ∧
    (examplePool 2 [SL_PLAYSTATE_PLAYING, SL_PLAYSTATE_STOPPED] [0, 0]).eff.mLoopTimes 0 = 0 ∧
    (MusicStoppedCallback 0
      (examplePool 2 [SL_PLAYSTATE_PLAYING, SL_PLAYSTATE_STOPPED] [0, 0])).eff.mLoopTimes 0 =
        -1 ∧
    (MusicStoppedCallback 0 (MusicStoppedCallback 0
      (examplePool 2 [SL_PLAYSTATE_PLAYING, SL_PLAYSTATE_STOPPED] [0, 0]))).slotState 0 =
        SL_PLAYSTATE_PLAYING ∧
    (MusicStoppedCallback 0 (MusicStoppedCallback 0
      (examplePool 2 [SL_PLAYSTATE_PLAYING, SL_PLAYSTATE_STOPPED] [0, 0]))).eff.mLoopTimes 0 =
        -1 := by
  have h := callback_play_once_leaves_sentinel
    (examplePool 2 [SL_PLAYSTATE_PLAYING, SL_PLAYSTATE_STOPPED] [0, 0]) 0
    (examplePool_injective _ _ _) (by decide)
  exact ⟨examplePool_injective _ _ _, by decide, h.1, h.2.1, h.2.2.1⟩

end Android

/-! ## Theorems: the SDL_mixer build -/

namespace Desktop

theorem SetVolumes_snoc (s : SoundEffect) (vs : List ℚ) (v : ℚ) :
    s.SetVolumes (vs ++ [v]) = (s.SetVolumes vs).SetVolume v := by
  simp [SoundEffect.SetVolumes, List.foldl_append]

/-- C8: when the mute flag is set `GetVolume()` returns the cached volume
`mVolume`, whatever the mixer holds, and after any sequence of `SetVolume`
calls that cached volume is the value passed to the last of them; when the
mute flag is clear `GetVolume()` returns the live volume of the channel divided
by `MIX_MAX_VOLUME`, a value between 0 and 1 whenever the live volume is
between 0 and `MIX_MAX_VOLUME`. -/
theorem GetVolume_cached_when_muted_live_otherwise (s : SoundEffect) (mixer : Mixer)
    (vs : List ℚ) (v : ℚ) :
    (s.mIsMuted = true → s.GetVolume mixer = s.mVolume) ∧
    ((s.SetVolumes (vs ++ [v])).mIsMuted = true →
      (s.SetVolumes (vs ++ [v])).GetVolume mixer = v) ∧
    (s.mIsMuted = false →
      s.GetVolume mixer = (mixer s.mPlayChannel : ℚ) / (MIX_MAX_VOLUME : ℚ) ∧
      (0 ≤ mixer s.mPlayChannel → mixer s.mPlayChannel ≤ MIX_MAX_VOLUME →
        0 ≤ s.GetVolume mixer ∧ s.GetVolume mixer ≤ 1)) := by
  refine ⟨?_, ?_, ?_⟩
  · intro hm
    simp [SoundEffect.GetVolume, hm]
  · rw [SetVolumes_snoc]
    intro hm
    have hm' : (s.SetVolumes vs).mIsMuted = true := hm
    simp [SoundEffect.GetVolume, SoundEffect.SetVolume, hm']
  · intro hm
    have hval : s.GetVolume mixer = (mixer s.mPlayChannel : ℚ) / (MIX_MAX_VOLUME : ℚ) := by
      simp [SoundEffect.GetVolume, hm, Mix_Volume]
    refine ⟨hval, ?_⟩
    intro h0 h1
    rw [hval]
    have h0q : (0 : ℚ) ≤ (mixer s.mPlayChannel : ℚ) := by exact_mod_cast h0
    have h1q : (mixer s.mPlayChannel : ℚ) ≤ (MIX_MAX_VOLUME : ℚ) := by exact_mod_cast h1
    have hpos : (0 : ℚ) < (MIX_MAX_VOLUME : ℚ) := by simp [MIX_MAX_VOLUME]
    exact ⟨div_nonneg h0q hpos.le, (div_le_one hpos).mpr h1q⟩

theorem GetVolume_cached_when_muted_live_otherwise_witness :
    SoundEffect.GetVolume { mPlayChannel := 0, mIsMuted := true, mVolume := 1 / 2 }
      (fun _ => 32) = 1 / 2 ∧
    (SoundEffect.SetVolumes { mPlayChannel := 0, mIsMuted := true, mVolume := 1 / 2 }
      ([1 / 4, 1] ++ [3 / 4])).mIsMuted = true ∧
    SoundEffect.GetVolume
      (SoundEffect.SetVolumes { mPlayChannel := 0, mIsMuted := true, mVolume := 1 / 2 }
        ([1 / 4, 1] ++ [3 / 4]))
      (fun _ => 32) = 3 / 4 ∧
    (0 : Int) ≤ 32 ∧ (32 : Int) ≤ MIX_MAX_VOLUME ∧
    SoundEffect.GetVolume { mPlayChannel := 0, mIsMuted := false, mVolume := 1 / 2 }
      (fun _ => 32) = ((32 : Int) : ℚ) / (MIX_MAX_VOLUME : ℚ) ∧
    0 ≤ SoundEffect.GetVolume { mPlayChannel := 0, mIsMuted := false, mVolume := 1 / 2 }
      (fun _ => 32) ∧
    SoundEffect.GetVolume { mPlayChannel := 0, mIsMuted := false, mVolume := 1 / 2 }
      (fun _ => 32) ≤ 1 := by
  have hmute : (SoundEffect.SetVolumes { mPlayChannel := 0, mIsMuted := true, mVolume := 1 / 2 }
      ([1 / 4, 1] ++ [3 / 4])).mIsMuted = true := rfl
  have hm := GetVolume_cached_when_muted_live_otherwise
    { mPlayChannel := 0, mIsMuted := true, mVolume := 1 / 2 } (fun _ => 32) [1 / 4, 1] (3 / 4)
  have hu := (GetVolume_cached_when_muted_live_otherwise
    { mPlayChannel := 0, mIsMuted := false, mVolume := 1 / 2 } (fun _ => 32) [] 0).2.2 rfl
  have hr := hu.2 (by decide) (by decide)
  exact ⟨hm.1 rfl, hmute, hm.2.1 hmute, by decide, by decide, hu.1, hr.1, hr.2⟩

end Desktop

end star
